import Mathlib

/-!
Shallow embedding of the authorization and token-lifecycle subsystem of the
monarch-mcp-server Cloudflare worker (src/worker/src/auth.ts, auth-flow.ts,
oauth-mcp.ts, index.ts, and the crypto utility module).

The Durable Keyed Store (Cloudflare KV) is modelled as a function from keys
to optional (value, ttl) pairs; `put` and `delete` are functional updates.
Each handler/manager method is translated as a pure function threading the
store explicitly; randomness (crypto.randomUUID, crypto.getRandomValues) and
the current time (Date.now) are passed in as parameters.  External Web APIs
(SubtleCrypto AES-GCM / PBKDF2 / SHA-256, TextEncoder/TextDecoder, btoa/atob)
are kept abstract, bundled with the contracts the spec assigns to them.
-/

namespace MonarchMCP

/-- Session record stored under `session:{sessionId}` (auth.ts, SessionData). -/
structure SessionData where
  userId : String
  username : String
  email : String
  authenticated : Bool
  deriving DecidableEq, Repr

/-- Magic-link record stored under `magic:{code}` (auth-flow.ts). -/
structure MagicData where
  userId : String
  createdAt : Nat
  deriving DecidableEq, Repr

/-- Pending MCP-OAuth parameters stored under `oauth:pending:{state}` (index.ts). -/
structure PendingData where
  clientId : String
  redirectUri : String
  codeChallenge : String
  codeChallengeMethod : String
  deriving DecidableEq, Repr

/-- Authorization-code record stored under `oauth:code:{code}` (oauth-mcp.ts). -/
structure AuthCodeData where
  userId : String
  clientId : String
  redirectUri : String
  codeChallenge : String
  codeChallengeMethod : String
  createdAt : Nat
  deriving DecidableEq, Repr

/-- Access-token record stored under `oauth:access:{token}` (oauth-mcp.ts). -/
structure AccessTokenData where
  userId : String
  clientId : String
  scope : String
  createdAt : Nat
  deriving DecidableEq, Repr

/-- Refresh-token record stored under `oauth:refresh:{token}` (oauth-mcp.ts). -/
structure RefreshTokenData where
  userId : String
  clientId : String
  createdAt : Nat
  deriving DecidableEq, Repr

/-- Registered-client record stored under `oauth:client:{clientId}`
(oauth-mcp.ts, registerClient). -/
structure ClientData where
  client_id : String
  client_id_issued_at : Nat
  client_name : Option String
  client_uri : Option String
  redirect_uris : Option (List String)
  grant_types : List String
  response_types : List String
  scope : String
  token_endpoint_auth_method : String
  deriving DecidableEq, Repr

/-- Monarch token metadata stored under `monarch:token:meta:{userId}`
(auth-flow.ts, storeTokenWithMetadata).  Timestamps are modelled as epoch
milliseconds; the ISO-string round trip through `new Date(...)` is elided. -/
structure MonarchMeta where
  createdAt : Nat
  expiresAt : Nat
  userId : String
  deriving DecidableEq, Repr

/-- Values that the worker serializes into the KV store.  Each key namespace
holds exactly one shape of JSON document; `strV` covers raw string values
(the CSRF marker `'valid'` and the stored Monarch token). -/
inductive KVValue where
  | strV (s : String)
  | sessionV (d : SessionData)
  | magicV (d : MagicData)
  | pendingV (d : PendingData)
  | authCodeV (d : AuthCodeData)
  | accessTokV (d : AccessTokenData)
  | refreshTokV (d : RefreshTokenData)
  | clientV (d : ClientData)
  | metaV (d : MonarchMeta)
  deriving DecidableEq, Repr

/-- A KV namespace: keys map to a stored value together with the
`expirationTtl` (seconds) that was passed when it was written. -/
def Store : Type := String → Option (KVValue × Nat)

/-- Writes `kv.put(key, value, { expirationTtl: ttl })`. -/
def kvPut (s : Store) (key : String) (v : KVValue) (ttl : Nat) : Store :=
  fun k => if k = key then some (v, ttl) else s k

/-- Reads `kv.get(key)`. -/
def kvGet (s : Store) (key : String) : Option KVValue :=
  (s key).map Prod.fst

/-- Deletes `kv.delete(key)`. -/
def kvDelete (s : Store) (key : String) : Store :=
  fun k => if k = key then none else s k

/-- JavaScript truthiness of a `string | undefined` value: `undefined` and
the empty string are falsy. -/
def strTruthy : Option String → Bool
  | none => false
  | some s => s != ""

/-- JavaScript `a || b` on `string | undefined` values. -/
def jsOr (a b : Option String) : Option String :=
  if strTruthy a then a else b

/-! OAuthStateManager (auth.ts): one-time CSRF state tokens. -/

/-- Creates `createState()`; `rnd` models the `crypto.randomUUID()` result.
Stores the marker string `'valid'` with a 10-minute TTL. -/
def createState (s : Store) (rnd : String) : String × Store :=
  (rnd, kvPut s ("oauth:state:" ++ rnd) (.strV "valid") 600)

/-- Validates `validateState(state)`: looks the key up, and when the stored
value is truthy deletes it and returns true; otherwise returns false. -/
def validateState (s : Store) (state : String) : Bool × Store :=
  match kvGet s ("oauth:state:" ++ state) with
  | some v =>
      match v with
      | .strV str => if str != "" then (true, kvDelete s ("oauth:state:" ++ state)) else (false, s)
      | _ => (true, kvDelete s ("oauth:state:" ++ state))
  | none => (false, s)

/-! SessionManager (auth.ts). -/

/-- Creates `createSession(userId, username, email)`; `uuid` models the
`crypto.randomUUID()` session id.  The record always carries
`authenticated: true` and is stored with a 7-day TTL. -/
def createSession (s : Store) (uuid userId username email : String) : String × Store :=
  let sessionData : SessionData := ⟨userId, username, email, true⟩
  (uuid, kvPut s ("session:" ++ uuid) (.sessionV sessionData) (60 * 60 * 24 * 7))

/-- Reads `getSession(sessionId)`; JSON.parse of the stored document. -/
def getSession (s : Store) (sessionId : String) : Option SessionData :=
  match kvGet s ("session:" ++ sessionId) with
  | some (.sessionV d) => some d
  | _ => none

/-- Deletes `deleteSession(sessionId)`. -/
def deleteSession (s : Store) (sessionId : String) : Store :=
  kvDelete s ("session:" ++ sessionId)

/-! MagicLinkManager (auth-flow.ts). -/

/-- Alphabet used by `generateRandomCode`: the source string
`'ABCDEFGHJKLMNPQRSTUVWXYZ23456789'` (confusing characters removed). -/
def magicChars : List Char := "ABCDEFGHJKLMNPQRSTUVWXYZ23456789".data

/-- Generates `generateRandomCode(length)`; `randomValues` models the
`crypto.getRandomValues(new Uint8Array(length))` bytes.  Character `i` of the
result is `chars[randomValues[i] % chars.length]`. -/
def generateRandomCode (length : Nat) (randomValues : List Nat) : String :=
  ⟨(List.range length).map fun i => magicChars.getD (randomValues.getD i 0 % magicChars.length) 'A'⟩

/-- Generates `generateMagicLink(userId, baseUrl)`: draws an 8-character code,
stores the `{userId, createdAt}` record with a 10-minute TTL, then fails with
a configuration error when neither `baseUrl` nor `PUBLIC_BASE_URL` is set
(note the store write has already happened), else returns the URL. -/
def generateMagicLink (s : Store) (randomValues : List Nat) (userId : String)
    (baseUrl publicBaseUrl : Option String) (now : Nat) : Except String String × Store :=
  let code := generateRandomCode 8 randomValues
  let s' := kvPut s ("magic:" ++ code) (.magicV ⟨userId, now⟩) 600
  let origin := jsOr baseUrl publicBaseUrl
  if strTruthy origin then
    (.ok ((origin.getD "") ++ "/auth/magic/" ++ code), s')
  else
    (.error "Cannot generate magic link without a base URL. Configure PUBLIC_BASE_URL.", s')

/-- Validates `validateMagicLink(code)`: absent key returns null; otherwise
the entry is deleted (one-time use) and the parsed `userId` field returned. -/
def validateMagicLink (s : Store) (code : String) : Option String × Store :=
  match kvGet s ("magic:" ++ code) with
  | none => (none, s)
  | some v =>
      let userId : Option String := match v with
        | .magicV d => some d.userId
        | _ => none
      (userId, kvDelete s ("magic:" ++ code))

/-! AuthHealthManager (auth-flow.ts). -/

/-- Result shape of `checkAuthHealth` (auth-flow.ts, AuthStatus).  The
`tokenExpiry` ISO string is modelled as the epoch-milliseconds value it
denotes. -/
structure AuthStatus where
  authenticated : Bool
  hasMonarchToken : Bool
  tokenExpiry : Option Nat
  needsAction : Bool
  actionRequired : Option String
  setupUrl : Option String
  deriving DecidableEq, Repr

/-- Reads the Monarch token record (auth.ts, MonarchTokenManager.getToken):
a plain `kv.get` of `monarch:token:{userId}`. -/
def monarchGetToken (m : Store) (userId : String) : Option String :=
  match kvGet m ("monarch:token:" ++ userId) with
  | some (.strV t) => some t
  | _ => none

/-- Checks `checkAuthHealth(userId, baseUrl)` (auth-flow.ts): reads the token
and its metadata, computes `hasValidToken` from the metadata `expiresAt`
compared against now, and classifies the needed action. -/
def checkAuthHealth (m : Store) (userId : String) (now : Nat)
    (baseUrl publicBaseUrl : Option String) : AuthStatus :=
  let token := monarchGetToken m userId
  let tokenMeta : Option MonarchMeta :=
    match kvGet m ("monarch:token:meta:" ++ userId) with
    | some (.metaV d) => some d
    | _ => none
  let tokenExpiry : Option Nat :=
    match tokenMeta with
    | some meta => if strTruthy token then some meta.expiresAt else none
    | none => none
  let hasValidToken : Bool :=
    match tokenMeta with
    | some meta => strTruthy token && decide (meta.expiresAt > now)
    | none => false
  let needsAction : Bool := !strTruthy token || !hasValidToken
  let origin := jsOr baseUrl publicBaseUrl
  let actionRequired : Option String :=
    if needsAction then
      if !strTruthy token then some "initial_setup"
      else if !hasValidToken then some "token_expired"
      else none
    else none
  let setupUrl : Option String :=
    if needsAction && (!strTruthy token || !hasValidToken) && strTruthy origin then
      some ((origin.getD "") ++ "/auth/refresh")
    else none
  { authenticated := true
    hasMonarchToken := strTruthy token && hasValidToken
    tokenExpiry := tokenExpiry
    needsAction := needsAction
    actionRequired := actionRequired
    setupUrl := setupUrl }

/-! MCPOAuthManager (oauth-mcp.ts). -/

/-- Stores `storeAuthorizationCode(...)`: the PKCE-bound record under
`oauth:code:{code}` with a 10-minute TTL. -/
def storeAuthorizationCode (s : Store)
    (code userId clientId redirectUri codeChallenge codeChallengeMethod : String)
    (now : Nat) : Store :=
  kvPut s ("oauth:code:" ++ code)
    (.authCodeV ⟨userId, clientId, redirectUri, codeChallenge, codeChallengeMethod, now⟩) 600

/-- Applies the three `.replace` calls of the source to a base64 string:
`+` becomes `-`, `/` becomes `_`, `=` is removed. -/
def base64urlOfB64 (s : String) : String :=
  ⟨(s.data.map fun c => if c = '+' then '-' else if c = '/' then '_' else c).filter
    fun c => c ≠ '='⟩

/-- Computes the PKCE S256 challenge of a verifier as the source does:
UTF-8 encode, SHA-256 digest, `btoa`, then base64url character fixes.  The
TextEncoder, SubtleCrypto digest and `btoa` Web APIs are parameters. -/
def computeS256Challenge (utf8Encode : String → List Nat) (sha256 : List Nat → List Nat)
    (btoa : List Nat → String) (codeVerifier : String) : String :=
  base64urlOfB64 (btoa (sha256 (utf8Encode codeVerifier)))

/-- Identity pair `{ userId, clientId }` returned on successful validation. -/
structure TokenIdentity where
  userId : String
  clientId : String
  deriving DecidableEq, Repr

/-- Validates `validateAuthorizationCode(code, codeVerifier, redirectUri)`:
absent record fails; a `redirectUri` mismatch fails; with method S256 a
challenge mismatch fails; only then is the record deleted (one-time use) and
the identity returned. -/
def validateAuthorizationCode (utf8Encode : String → List Nat)
    (sha256 : List Nat → List Nat) (btoa : List Nat → String) (s : Store)
    (code codeVerifier redirectUri : String) : Option TokenIdentity × Store :=
  match kvGet s ("oauth:code:" ++ code) with
  | none => (none, s)
  | some (.authCodeV authData) =>
      if authData.redirectUri != redirectUri then (none, s)
      else if authData.codeChallengeMethod == "S256" &&
          computeS256Challenge utf8Encode sha256 btoa codeVerifier != authData.codeChallenge then
        (none, s)
      else
        (some ⟨authData.userId, authData.clientId⟩, kvDelete s ("oauth:code:" ++ code))
  | some _ => (none, s)

/-- Creates `generateAccessToken(userId, clientId)`; `token` models the
`crypto.randomUUID()` value.  Stored with a 7-day TTL and scope `mcp`. -/
def generateAccessToken (s : Store) (token userId clientId : String) (now : Nat) :
    String × Store :=
  (token, kvPut s ("oauth:access:" ++ token)
    (.accessTokV ⟨userId, clientId, "mcp", now⟩) (60 * 60 * 24 * 7))

/-- Validates `validateAccessToken(token)` by store lookup. -/
def validateAccessToken (s : Store) (token : String) : Option String :=
  match kvGet s ("oauth:access:" ++ token) with
  | some (.accessTokV d) => some d.userId
  | _ => none

/-- Creates `generateRefreshToken(userId, clientId)`; stored with a 90-day
TTL. -/
def generateRefreshToken (s : Store) (token userId clientId : String) (now : Nat) :
    String × Store :=
  (token, kvPut s ("oauth:refresh:" ++ token)
    (.refreshTokV ⟨userId, clientId, now⟩) (60 * 60 * 24 * 90))

/-- Validates `validateRefreshToken(token)`: a pure lookup, with no write or
delete of the entry. -/
def validateRefreshToken (s : Store) (token : String) : Option TokenIdentity :=
  match kvGet s ("oauth:refresh:" ++ token) with
  | some (.refreshTokV d) => some ⟨d.userId, d.clientId⟩
  | _ => none

/-! Route handlers (index.ts). -/

/-- Result of the `requireAuth` middleware: either the session data or a
redirect response. -/
inductive RequireAuthResult where
  | redirect (location : String)
  | session (sd : SessionData)
  deriving DecidableEq, Repr

/-- Middleware `requireAuth(c)`: a missing cookie, a missing session record,
or a session whose `authenticated` field is not true all redirect to
`/auth/login`. -/
def requireAuth (s : Store) (cookieSessionId : Option String) : RequireAuthResult :=
  if !strTruthy cookieSessionId then .redirect "/auth/login"
  else
    match getSession s (cookieSessionId.getD "") with
    | none => .redirect "/auth/login"
    | some session =>
        if !session.authenticated then .redirect "/auth/login"
        else .session session

/-- Outcome of `GET /oauth/authorize`. -/
inductive AuthorizeResult where
  | errJson (error : String) (status : Nat)
  | redirectLogin (stateParam : String)
  | redirectClient (redirectUri code stateParam : String)
  deriving DecidableEq, Repr

/-- Handler `GET /oauth/authorize` (index.ts): parameter validation, session
check (detouring unauthenticated callers through the login flow after saving
the pending parameters), then authorization-code issuance bound to the
session user and the presented parameters.  `uuid` models the
`crypto.randomUUID()` code. -/
def authorizeEndpoint (s : Store)
    (clientId redirectUri state codeChallenge codeChallengeMethod responseType : Option String)
    (cookieSessionId : Option String) (uuid : String) (now : Nat) :
    AuthorizeResult × Store :=
  if !(strTruthy clientId && strTruthy redirectUri && strTruthy state && strTruthy codeChallenge) then
    (.errJson "invalid_request" 400, s)
  else if responseType ≠ some "code" then
    (.errJson "unsupported_response_type" 400, s)
  else if codeChallengeMethod ≠ some "S256" then
    (.errJson "invalid_request" 400, s)
  else
    let session :=
      if strTruthy cookieSessionId then getSession s (cookieSessionId.getD "") else none
    let unauthenticatedDetour : AuthorizeResult × Store :=
      (.redirectLogin (state.getD ""),
       kvPut s ("oauth:pending:" ++ state.getD "")
         (.pendingV ⟨clientId.getD "", redirectUri.getD "", codeChallenge.getD "",
           codeChallengeMethod.getD ""⟩) 600)
    match session with
    | none => unauthenticatedDetour
    | some sd =>
        if !sd.authenticated then unauthenticatedDetour
        else
          let s' := storeAuthorizationCode s uuid sd.userId (clientId.getD "")
            (redirectUri.getD "") (codeChallenge.getD "") (codeChallengeMethod.getD "") now
          (.redirectClient (redirectUri.getD "") uuid (state.getD ""), s')

/-- Request body of `POST /oauth/token` (oauth-mcp.ts, OAuth2TokenRequest). -/
structure TokenRequest where
  grant_type : Option String
  code : Option String
  redirect_uri : Option String
  client_id : Option String
  code_verifier : Option String
  refresh_token : Option String
  deriving DecidableEq, Repr

/-- Response body of `POST /oauth/token` (oauth-mcp.ts, OAuth2TokenResponse). -/
structure TokenResponse where
  access_token : String
  token_type : String
  expires_in : Nat
  refresh_token : Option String
  scope : Option String
  deriving DecidableEq, Repr

/-- Outcome of `POST /oauth/token`: a JSON token response or a JSON error
with its HTTP status. -/
inductive TokenResult where
  | ok (r : TokenResponse)
  | err (error : String) (status : Nat)
  deriving DecidableEq, Repr

/-- Handler `POST /oauth/token` (index.ts): the `authorization_code` grant
validates and consumes the code then mints an access and a refresh token;
the `refresh_token` grant validates the refresh token (without touching its
entry) and mints only a new access token.  `uuid1`/`uuid2` model the fresh
`crypto.randomUUID()` token values. -/
def tokenEndpoint (utf8Encode : String → List Nat) (sha256 : List Nat → List Nat)
    (btoa : List Nat → String) (s : Store) (body : TokenRequest)
    (uuid1 uuid2 : String) (now : Nat) : TokenResult × Store :=
  if body.grant_type = some "authorization_code" then
    if !(strTruthy body.code && strTruthy body.redirect_uri && strTruthy body.code_verifier) then
      (.err "invalid_request" 400, s)
    else
      let r := validateAuthorizationCode utf8Encode sha256 btoa s
        (body.code.getD "") (body.code_verifier.getD "") (body.redirect_uri.getD "")
      match r.1 with
      | none => (.err "invalid_grant" 400, r.2)
      | some identity =>
          let a := generateAccessToken r.2 uuid1 identity.userId identity.clientId now
          let rt := generateRefreshToken a.2 uuid2 identity.userId identity.clientId now
          (.ok ⟨a.1, "Bearer", 604800, some rt.1, some "mcp"⟩, rt.2)
  else if body.grant_type = some "refresh_token" then
    if !strTruthy body.refresh_token then
      (.err "invalid_request" 400, s)
    else
      match validateRefreshToken s (body.refresh_token.getD "") with
      | none => (.err "invalid_grant" 400, s)
      | some identity =>
          let a := generateAccessToken s uuid1 identity.userId identity.clientId now
          (.ok ⟨a.1, "Bearer", 604800, none, some "mcp"⟩, a.2)
  else
    (.err "unsupported_grant_type" 400, s)

/-- Cookie attributes set by `setCookie` as far as the spec claims reach:
name, value and `maxAge` seconds. -/
structure CookieSet where
  name : String
  value : String
  maxAge : Nat
  deriving DecidableEq, Repr

/-- Outcome of `GET /auth/magic/:code`. -/
inductive MagicResult where
  | badRequest
  | expiredPage (status : Nat)
  | redirect (location : String) (cookie : CookieSet)
  deriving DecidableEq, Repr

/-- Handler `GET /auth/magic/:code` (index.ts): validates (and thereby
consumes) the magic code; on success creates a session via
`SessionManager.createSession` for the recovered user, sets the session
cookie with `maxAge` one hour, and redirects to `/auth/refresh`. -/
def magicHandler (s : Store) (code : String) (uuid : String) : MagicResult × Store :=
  if !strTruthy (some code) then (.badRequest, s)
  else
    let v := validateMagicLink s code
    if !strTruthy v.1 then (.expiredPage 410, v.2)
    else
      let c := createSession v.2 uuid (v.1.getD "") ("user-" ++ v.1.getD "") ""
      (.redirect "/auth/refresh" ⟨"session_id", c.1, 60 * 60⟩, c.2)

/-! Credential cipher module (crypto utility file): `encryptString` and
`decryptString`.  The Web APIs it calls — PBKDF2 key derivation, AES-GCM
encryption/decryption, TextEncoder/TextDecoder, `btoa`/`atob` — are external
collaborators; they are bundled here as parameters together with the
contracts the spec assigns to them (authenticated encryption with the
derived key, deterministic key derivation, and the encode/decode round
trips of the pure codecs). -/

structure CryptoPrims (K : Type) where
  deriveKey : String → K
  aeadEncrypt : K → List Nat → List Nat → List Nat
  aeadDecrypt : K → List Nat → List Nat → Option (List Nat)
  utf8Encode : String → List Nat
  utf8Decode : List Nat → Option String
  b64Encode : List Nat → String
  b64Decode : String → Option (List Nat)
  aead_roundtrip : ∀ k iv p, aeadDecrypt k iv (aeadEncrypt k iv p) = some p
  aead_auth : ∀ k k' iv p, k ≠ k' → aeadDecrypt k' iv (aeadEncrypt k iv p) = none
  derive_injective : ∀ s₁ s₂ : String, s₁ ≠ s₂ → deriveKey s₁ ≠ deriveKey s₂
  utf8_roundtrip : ∀ s, utf8Decode (utf8Encode s) = some s
  b64_roundtrip : ∀ bs, b64Decode (b64Encode bs) = some bs

/-- Message thrown by the source's `decryptString` catch-all handler. -/
def decryptFailureMessage : String :=
  "Failed to decrypt data. The encryption key may be incorrect or the data may be corrupted."

/-- Encrypts `encryptString(secret, plaintext)`: UTF-8 encode, derive the
key from the secret, AES-GCM encrypt under a random 12-byte IV (`iv` models
the `crypto.getRandomValues` output), prepend the IV, base64 encode. -/
def encryptString {K : Type} (cp : CryptoPrims K) (secret : String) (iv : List Nat)
    (plaintext : String) : String :=
  let data := cp.utf8Encode plaintext
  let key := cp.deriveKey secret
  let encrypted := cp.aeadEncrypt key iv data
  let combined := iv ++ encrypted
  cp.b64Encode combined

/-- Decrypts `decryptString(secret, ciphertext)`: base64 decode, split off
the 12-byte IV, derive the key, AES-GCM decrypt, UTF-8 decode; every failure
surfaces as the single generic decryption error of the source. -/
def decryptString {K : Type} (cp : CryptoPrims K) (secret : String) (ciphertext : String) :
    Except String String :=
  match cp.b64Decode ciphertext with
  | none => .error decryptFailureMessage
  | some combined =>
      let iv := combined.take 12
      let data := combined.drop 12
      let key := cp.deriveKey secret
      match cp.aeadDecrypt key iv data with
      | none => .error decryptFailureMessage
      | some decrypted =>
          match cp.utf8Decode decrypted with
          | none => .error decryptFailureMessage
          | some out => .ok out

/-! Concrete primitives satisfying the external contracts, used to witness
the hypotheses of the cipher theorems on explicit inputs. -/

/-- Byte view of a string used by the demonstration primitives. -/
def keyBytes (k : String) : List Nat := k.data.map Char.toNat

/-- Demonstration AEAD encryption: tags the ciphertext with the key bytes. -/
def demoAeadEncrypt (k : String) (_iv p : List Nat) : List Nat :=
  (keyBytes k).length :: (keyBytes k ++ p)

/-- Demonstration AEAD decryption: succeeds only when the embedded key tag
matches the presented key. -/
def demoAeadDecrypt (k : String) (_iv c : List Nat) : Option (List Nat) :=
  match c with
  | [] => none
  | n :: rest =>
      if n = (keyBytes k).length then
        if rest.take n = keyBytes k then some (rest.drop n) else none
      else none

/-- Demonstration byte-list-to-string codec, encoding side. -/
def unaryEncode : List Nat → List Char
  | [] => []
  | n :: rest => List.replicate n 'a' ++ 'b' :: unaryEncode rest

/-- Demonstration byte-list-to-string codec, decoding side. -/
def unaryDecode : List Char → Nat → Option (List Nat)
  | [], k => if k = 0 then some [] else none
  | c :: rest, k =>
      if c = 'a' then unaryDecode rest (k + 1)
      else if c = 'b' then (unaryDecode rest 0).map (fun l => k :: l)
      else none

theorem unaryDecode_replicate (n : Nat) (l : List Char) (k : Nat) :
    unaryDecode (List.replicate n 'a' ++ l) k = unaryDecode l (k + n) := by
  induction n generalizing k with
  | zero => simp
  | succ m ih =>
      rw [List.replicate_succ]
      simpa [unaryDecode, Nat.add_comm, Nat.add_left_comm] using ih (k + 1)

theorem unaryDecode_unaryEncode (bs : List Nat) :
    unaryDecode (unaryEncode bs) 0 = some bs := by
  induction bs with
  | nil => rfl
  | cons n rest ih => simp [unaryEncode, unaryDecode_replicate, unaryDecode, ih]

theorem keyBytes_injective : Function.Injective keyBytes := by
  intro a b h
  have hchar : Function.Injective Char.toNat := fun _ _ hc => Char.ext (UInt32.ext hc)
  have hdata : a.data = b.data := List.map_injective_iff.mpr hchar h
  exact congrArg String.mk hdata

theorem demoAead_roundtrip (k : String) (iv p : List Nat) :
    demoAeadDecrypt k iv (demoAeadEncrypt k iv p) = some p := by
  simp [demoAeadEncrypt, demoAeadDecrypt, List.take_left, List.drop_left]

theorem demoAead_auth (k k' : String) (iv p : List Nat) (h : k ≠ k') :
    demoAeadDecrypt k' iv (demoAeadEncrypt k iv p) = none := by
  have hne : keyBytes k ≠ keyBytes k' := fun he => h (keyBytes_injective he)
  by_cases hlen : (keyBytes k).length = (keyBytes k').length
  · have htake : (keyBytes k ++ p).take (keyBytes k').length = keyBytes k := by
      rw [← hlen]; exact List.take_left _ _
    simp [demoAeadEncrypt, demoAeadDecrypt, hlen, htake, hne]
  · simp [demoAeadEncrypt, demoAeadDecrypt, hlen]

/-- Demonstration instance of the external crypto contracts. -/
def demoCryptoPrims : CryptoPrims String where
  deriveKey := id
  aeadEncrypt := demoAeadEncrypt
  aeadDecrypt := demoAeadDecrypt
  utf8Encode := fun s => s.data.map Char.toNat
  utf8Decode := fun bs => some ⟨bs.map Char.ofNat⟩
  b64Encode := fun bs => ⟨unaryEncode bs⟩
  b64Decode := fun s => unaryDecode s.data 0
  aead_roundtrip := demoAead_roundtrip
  aead_auth := fun k k' iv p h => demoAead_auth k k' iv p h
  derive_injective := fun _ _ h => h
  utf8_roundtrip := by
    intro s
    cases s with
    | mk d =>
        show some (String.mk ((d.map Char.toNat).map Char.ofNat)) = some (String.mk d)
        rw [List.map_map]
        have hco : (Char.ofNat ∘ Char.toNat) = id := funext fun c => Char.ofNat_toNat c
        rw [hco, List.map_id]
  b64_roundtrip := by
    intro bs
    simpa using unaryDecode_unaryEncode bs

/-! Store lemmas. -/

theorem kvGet_kvPut_self (s : Store) (k : String) (v : KVValue) (ttl : Nat) :
    kvGet (kvPut s k v ttl) k = some v := by
  simp [kvGet, kvPut]

theorem kvGet_kvPut_ne (s : Store) (k k' : String) (v : KVValue) (ttl : Nat)
    (h : k' ≠ k) : kvGet (kvPut s k v ttl) k' = kvGet s k' := by
  simp [kvGet, kvPut, h]

theorem kvGet_kvDelete_self (s : Store) (k : String) :
    kvGet (kvDelete s k) k = none := by
  simp [kvGet, kvDelete]

theorem kvGet_kvDelete_ne (s : Store) (k k' : String) (h : k' ≠ k) :
    kvGet (kvDelete s k) k' = kvGet s k' := by
  simp [kvGet, kvDelete, h]

/-! Behaviour lemmas for the one-time validators. -/

theorem validateState_success_store (s : Store) (state : String)
    (h : (validateState s state).1 = true) :
    (validateState s state).2 = kvDelete s ("oauth:state:" ++ state) := by
  unfold validateState at h ⊢
  rcases hk : kvGet s ("oauth:state:" ++ state) with _ | v
  · rw [hk] at h; simp at h
  · rw [hk] at h
    cases v with
    | strV str =>
        by_cases hstr : str != ""
        · simp [hstr]
        · simp [hstr] at h
    | sessionV d => rfl
    | magicV d => rfl
    | pendingV d => rfl
    | authCodeV d => rfl
    | accessTokV d => rfl
    | refreshTokV d => rfl
    | clientV d => rfl
    | metaV d => rfl

theorem validateMagicLink_present_store (s : Store) (code : String) (v : KVValue)
    (h : kvGet s ("magic:" ++ code) = some v) :
    (validateMagicLink s code).2 = kvDelete s ("magic:" ++ code) := by
  unfold validateMagicLink
  rw [h]

theorem validateMagicLink_success_store (s : Store) (code : String) (u : String)
    (h : (validateMagicLink s code).1 = some u) :
    (validateMagicLink s code).2 = kvDelete s ("magic:" ++ code) := by
  unfold validateMagicLink at h ⊢
  rcases hk : kvGet s ("magic:" ++ code) with _ | v
  · rw [hk] at h; simp at h
  · rfl

theorem validateAuthorizationCode_success_store (utf8Encode : String → List Nat)
    (sha256 : List Nat → List Nat) (btoa : List Nat → String) (s : Store)
    (code codeVerifier redirectUri : String) (t : TokenIdentity)
    (h : (validateAuthorizationCode utf8Encode sha256 btoa s code codeVerifier redirectUri).1 =
      some t) :
    (validateAuthorizationCode utf8Encode sha256 btoa s code codeVerifier redirectUri).2 =
      kvDelete s ("oauth:code:" ++ code) := by
  unfold validateAuthorizationCode at h ⊢
  rcases hk : kvGet s ("oauth:code:" ++ code) with _ | v
  · rw [hk] at h; simp at h
  · rw [hk] at h
    cases v with
    | authCodeV authData =>
        by_cases h1 : authData.redirectUri != redirectUri
        · simp [h1] at h
        · by_cases h2 : authData.codeChallengeMethod == "S256" &&
            computeS256Challenge utf8Encode sha256 btoa codeVerifier != authData.codeChallenge
          · simp [h1, h2] at h
          · simp [h1, h2]
    | strV str => simp at h
    | sessionV d => simp at h
    | magicV d => simp at h
    | pendingV d => simp at h
    | accessTokV d => simp at h
    | refreshTokV d => simp at h
    | clientV d => simp at h
    | metaV d => simp at h

theorem validateAuthorizationCode_failure_store (utf8Encode : String → List Nat)
    (sha256 : List Nat → List Nat) (btoa : List Nat → String) (s : Store)
    (code codeVerifier redirectUri : String)
    (h : (validateAuthorizationCode utf8Encode sha256 btoa s code codeVerifier redirectUri).1 =
      none) :
    (validateAuthorizationCode utf8Encode sha256 btoa s code codeVerifier redirectUri).2 = s := by
  unfold validateAuthorizationCode at h ⊢
  rcases hk : kvGet s ("oauth:code:" ++ code) with _ | v
  · rfl
  · rw [hk] at h
    cases v with
    | authCodeV authData =>
        by_cases h1 : authData.redirectUri != redirectUri
        · simp [h1]
        · by_cases h2 : authData.codeChallengeMethod == "S256" &&
            computeS256Challenge utf8Encode sha256 btoa codeVerifier != authData.codeChallenge
          · simp [h1, h2]
          · simp [h1, h2] at h
    | strV str => rfl
    | sessionV d => rfl
    | magicV d => rfl
    | pendingV d => rfl
    | accessTokV d => rfl
    | refreshTokV d => rfl
    | clientV d => rfl
    | metaV d => rfl

/-- C1: for every one-time entity (CSRF state token, magic-link code,
authorization code), a successful validate followed immediately by a second
validate of the same entity never succeeds twice: under the sequential store
model, the second call returns false (CSRF state), none (magic-link code),
or none (authorization code). -/
theorem c1_one_time_validation (s : Store) (state code : String)
    (utf8Encode : String → List Nat) (sha256 : List Nat → List Nat)
    (btoa : List Nat → String) (authCode codeVerifier redirectUri : String) :
    ((validateState s state).1 = true →
      (validateState (validateState s state).2 state).1 = false) ∧
    (∀ u, (validateMagicLink s code).1 = some u →
      (validateMagicLink (validateMagicLink s code).2 code).1 = none) ∧
    (∀ t, (validateAuthorizationCode utf8Encode sha256 btoa s authCode codeVerifier
        redirectUri).1 = some t →
      (validateAuthorizationCode utf8Encode sha256 btoa
        (validateAuthorizationCode utf8Encode sha256 btoa s authCode codeVerifier redirectUri).2
        authCode codeVerifier redirectUri).1 = none) := by
  refine ⟨fun h => ?_, fun u h => ?_, fun t h => ?_⟩
  · rw [validateState_success_store s state h]
    unfold validateState
    rw [kvGet_kvDelete_self]
  · rw [validateMagicLink_success_store s code u h]
    unfold validateMagicLink
    rw [kvGet_kvDelete_self]
  · rw [validateAuthorizationCode_success_store utf8Encode sha256 btoa s authCode codeVerifier
      redirectUri t h]
    unfold validateAuthorizationCode
    rw [kvGet_kvDelete_self]

/-! Concrete inputs used by the witnesses. -/

/-- Trivial stand-in for the TextEncoder parameter. -/
def constUtf8 : String → List Nat := fun _ => []

/-- Trivial stand-in for the SHA-256 digest parameter. -/
def constSha256 : List Nat → List Nat := fun _ => []

/-- Stand-in for `btoa` returning the fixed string `X`. -/
def constBtoa : List Nat → String := fun _ => "X"

/-- Store holding one CSRF state, one magic-link code, and one
authorization code whose challenge matches `constBtoa`'s output. -/
def demoStore : Store := fun k =>
  if k = "oauth:state:st1" then some (.strV "valid", 600)
  else if k = "magic:M1" then some (.magicV ⟨"u1", 0⟩, 600)
  else if k = "oauth:code:abc" then
    some (.authCodeV ⟨"u1", "cl1", "https://a/cb", "X", "S256", 0⟩, 600)
  else none

theorem c1_one_time_validation_witness :
    (validateState (validateState demoStore "st1").2 "st1").1 = false ∧
    (validateMagicLink (validateMagicLink demoStore "M1").2 "M1").1 = none ∧
    (validateAuthorizationCode constUtf8 constSha256 constBtoa
      (validateAuthorizationCode constUtf8 constSha256 constBtoa demoStore "abc" "v"
        "https://a/cb").2 "abc" "v" "https://a/cb").1 = none :=
  ⟨(c1_one_time_validation demoStore "st1" "M1" constUtf8 constSha256 constBtoa "abc" "v"
      "https://a/cb").1 (by decide),
   (c1_one_time_validation demoStore "st1" "M1" constUtf8 constSha256 constBtoa "abc" "v"
      "https://a/cb").2.1 "u1" (by decide),
   (c1_one_time_validation demoStore "st1" "M1" constUtf8 constSha256 constBtoa "abc" "v"
      "https://a/cb").2.2 ⟨"u1", "cl1"⟩ (by decide)⟩

/-- C2: for every stored authorization code with challenge method S256,
redeeming it with any code verifier whose computed challenge (base64url of
the SHA-256 digest) differs from the stored challenge fails:
`validateAuthorizationCode` returns none and the token endpoint answers
`invalid_grant`, even though the presented redirect URI matches the stored
one and the code entry is present (unexpired). -/
theorem c2_pkce_binding (utf8Encode : String → List Nat) (sha256 : List Nat → List Nat)
    (btoa : List Nat → String) (s : Store) (code codeVerifier : String)
    (authData : AuthCodeData) (ttl : Nat) (uuid1 uuid2 : String) (now : Nat)
    (hstored : s ("oauth:code:" ++ code) = some (.authCodeV authData, ttl))
    (hmethod : authData.codeChallengeMethod = "S256")
    (hmismatch : computeS256Challenge utf8Encode sha256 btoa codeVerifier ≠
      authData.codeChallenge)
    (hcode : code ≠ "") (hverif : codeVerifier ≠ "") (hredir : authData.redirectUri ≠ "") :
    (validateAuthorizationCode utf8Encode sha256 btoa s code codeVerifier
      authData.redirectUri).1 = none ∧
    (tokenEndpoint utf8Encode sha256 btoa s
      ⟨some "authorization_code", some code, some authData.redirectUri, none,
        some codeVerifier, none⟩ uuid1 uuid2 now).1 = .err "invalid_grant" 400 := by
  have hget : kvGet s ("oauth:code:" ++ code) = some (.authCodeV authData) := by
    simp [kvGet, hstored]
  have hval : (validateAuthorizationCode utf8Encode sha256 btoa s code codeVerifier
      authData.redirectUri).1 = none := by
    unfold validateAuthorizationCode
    rw [hget]
    simp [hmethod, hmismatch]
  refine ⟨hval, ?_⟩
  unfold tokenEndpoint
  simp only [strTruthy, Option.getD_some]
  simp [hcode, hverif, hredir, hval]

/-- Store with a single authorization code whose challenge (`Y`) cannot be
produced by `constBtoa` (which always yields `X`). -/
def pkceStore : Store := fun k =>
  if k = "oauth:code:abc" then
    some (.authCodeV ⟨"u1", "cl1", "https://a/cb", "Y", "S256", 0⟩, 600)
  else none

theorem c2_pkce_binding_witness :
    (validateAuthorizationCode constUtf8 constSha256 constBtoa pkceStore "abc" "v"
      "https://a/cb").1 = none ∧
    (tokenEndpoint constUtf8 constSha256 constBtoa pkceStore
      ⟨some "authorization_code", some "abc", some "https://a/cb", none, some "v", none⟩
      "t1" "t2" 0).1 = .err "invalid_grant" 400 :=
  c2_pkce_binding constUtf8 constSha256 constBtoa pkceStore "abc" "v"
    ⟨"u1", "cl1", "https://a/cb", "Y", "S256", 0⟩ 600 "t1" "t2" 0
    (by decide) (by decide) (by decide) (by decide) (by decide) (by decide)

/-- C3 counterexample: a redemption attempt of an existing authorization
code with a mismatched redirect URI fails and leaves the code's store entry
in place — the entry is not deleted on a failing attempt. -/
theorem c3_unconditional_delete_counterexample :
    (validateAuthorizationCode constUtf8 constSha256 constBtoa demoStore "abc" "v"
      "https://evil/cb").1 = none ∧
    (validateAuthorizationCode constUtf8 constSha256 constBtoa demoStore "abc" "v"
      "https://evil/cb").2 "oauth:code:abc" =
      some (.authCodeV ⟨"u1", "cl1", "https://a/cb", "X", "S256", 0⟩, 600) := by
  constructor <;> decide

/-- C3 (amended): the authorization-code entry is deleted only on a
successful redemption; a failing attempt — mismatched redirect URI, failed
PKCE verification, or an unknown code — leaves the store unchanged, so the
entry survives and the code can be retried. -/
theorem c3_delete_only_on_success (utf8Encode : String → List Nat)
    (sha256 : List Nat → List Nat) (btoa : List Nat → String) (s : Store)
    (code codeVerifier redirectUri : String) :
    ((validateAuthorizationCode utf8Encode sha256 btoa s code codeVerifier redirectUri).1 =
        none →
      (validateAuthorizationCode utf8Encode sha256 btoa s code codeVerifier redirectUri).2 =
        s) ∧
    (∀ t, (validateAuthorizationCode utf8Encode sha256 btoa s code codeVerifier
        redirectUri).1 = some t →
      (validateAuthorizationCode utf8Encode sha256 btoa s code codeVerifier
        redirectUri).2 ("oauth:code:" ++ code) = none) := by
  constructor
  · exact validateAuthorizationCode_failure_store utf8Encode sha256 btoa s code codeVerifier
      redirectUri
  · intro t h
    rw [validateAuthorizationCode_success_store utf8Encode sha256 btoa s code codeVerifier
      redirectUri t h]
    simp [kvDelete]

theorem c3_delete_only_on_success_witness :
    (validateAuthorizationCode constUtf8 constSha256 constBtoa demoStore "abc" "v"
      "https://evil/cb").2 = demoStore ∧
    (validateAuthorizationCode constUtf8 constSha256 constBtoa demoStore "abc" "v"
      "https://a/cb").2 "oauth:code:abc" = none :=
  ⟨(c3_delete_only_on_success constUtf8 constSha256 constBtoa demoStore "abc" "v"
      "https://evil/cb").1 (by decide),
   (c3_delete_only_on_success constUtf8 constSha256 constBtoa demoStore "abc" "v"
      "https://a/cb").2 ⟨"u1", "cl1"⟩ (by decide)⟩

/-! Key-namespace disjointness facts used by the frame theorems. -/

theorem accessKey_ne_refreshKey (x y : String) :
    "oauth:access:" ++ x ≠ "oauth:refresh:" ++ y := by
  intro h
  have h2 := congrArg String.data h
  rw [String.data_append, String.data_append] at h2
  simp at h2

theorem sessionKey_ne_clientKey (x y : String) :
    "session:" ++ x ≠ "oauth:client:" ++ y := by
  intro h
  have h2 := congrArg String.data h
  rw [String.data_append, String.data_append] at h2
  simp at h2

theorem codeKey_ne_clientKey (x y : String) :
    "oauth:code:" ++ x ≠ "oauth:client:" ++ y := by
  intro h
  have h2 := congrArg String.data h
  rw [String.data_append, String.data_append] at h2
  simp at h2

/-- C4 counterexample: a session minted through the magic-link redemption
path is stored with the 7-day TTL (604800 seconds), not a 1-hour TTL; the
1-hour figure appears only as the session cookie's `maxAge`. -/
theorem c4_magic_session_ttl_counterexample :
    (magicHandler demoStore "M1" "sess1").2 "session:sess1" =
      some (.sessionV ⟨"u1", "user-u1", "", true⟩, 604800) ∧
    (magicHandler demoStore "M1" "sess1").1 =
      .redirect "/auth/refresh" ⟨"session_id", "sess1", 3600⟩ := by
  constructor <;> decide

/-- C4 (amended): every session minted via the magic-link redemption path is
stored with the same 7-day TTL (604800 seconds) that
`SessionManager.createSession` always uses; only the session cookie set by
the handler is limited to a 1-hour `maxAge` (3600 seconds), against the
7-day cookie of the interactive login path. -/
theorem c4_magic_session_ttl (s : Store) (code uuid u : String)
    (hcode : code ≠ "") (hu : (validateMagicLink s code).1 = some u) (hu' : u ≠ "") :
    (magicHandler s code uuid).1 = .redirect "/auth/refresh" ⟨"session_id", uuid, 3600⟩ ∧
    (magicHandler s code uuid).2 ("session:" ++ uuid) =
      some (.sessionV ⟨u, "user-" ++ u, "", true⟩, 604800) := by
  unfold magicHandler
  simp only [strTruthy, hu]
  have hc : ((code : String) != "") = true := by simpa using hcode
  have hu2 : ((u : String) != "") = true := by simpa using hu'
  simp [hc, hu2, createSession, kvPut]

theorem c4_magic_session_ttl_witness :
    (magicHandler demoStore "M1" "sess1").1 =
      .redirect "/auth/refresh" ⟨"session_id", "sess1", 3600⟩ ∧
    (magicHandler demoStore "M1" "sess1").2 ("session:" ++ "sess1") =
      some (.sessionV ⟨"u1", "user-" ++ "u1", "", true⟩, 604800) :=
  c4_magic_session_ttl demoStore "M1" "sess1" "u1" (by decide) (by decide) (by decide)

/-- C5: a present (hence unexpired, since the store expires entries by
dropping them) refresh token yields a fresh access token with a 7-day
expiry (`expires_in` 604800 and a 604800-second store TTL), the response
carries no `refresh_token` field, and the refresh token's store entry is
left exactly as it was; an unknown or expired refresh token yields
`invalid_grant`. -/
theorem c5_refresh_token_grant (utf8Encode : String → List Nat)
    (sha256 : List Nat → List Nat) (btoa : List Nat → String) (s : Store)
    (tok uuid1 uuid2 : String) (now : Nat) :
    (∀ d ttl, s ("oauth:refresh:" ++ tok) = some (.refreshTokV d, ttl) → tok ≠ "" →
      (tokenEndpoint utf8Encode sha256 btoa s
        ⟨some "refresh_token", none, none, none, none, some tok⟩ uuid1 uuid2 now).1 =
        .ok ⟨uuid1, "Bearer", 604800, none, some "mcp"⟩ ∧
      (tokenEndpoint utf8Encode sha256 btoa s
        ⟨some "refresh_token", none, none, none, none, some tok⟩ uuid1 uuid2 now).2
        ("oauth:refresh:" ++ tok) = s ("oauth:refresh:" ++ tok) ∧
      (tokenEndpoint utf8Encode sha256 btoa s
        ⟨some "refresh_token", none, none, none, none, some tok⟩ uuid1 uuid2 now).2
        ("oauth:access:" ++ uuid1) =
        some (.accessTokV ⟨d.userId, d.clientId, "mcp", now⟩, 604800)) ∧
    (kvGet s ("oauth:refresh:" ++ tok) = none → tok ≠ "" →
      (tokenEndpoint utf8Encode sha256 btoa s
        ⟨some "refresh_token", none, none, none, none, some tok⟩ uuid1 uuid2 now).1 =
        .err "invalid_grant" 400) := by
  constructor
  · intro d ttl hstored htok
    have hget : kvGet s ("oauth:refresh:" ++ tok) = some (.refreshTokV d) := by
      simp [kvGet, hstored]
    have hval : validateRefreshToken s tok = some ⟨d.userId, d.clientId⟩ := by
      unfold validateRefreshToken
      rw [hget]
    have ht : ((tok : String) != "") = true := by simpa using htok
    refine ⟨?_, ?_, ?_⟩
    · unfold tokenEndpoint
      simp [strTruthy, ht, hval, generateAccessToken]
    · unfold tokenEndpoint
      simp only [strTruthy, ht]
      simp [hval, generateAccessToken, kvPut, accessKey_ne_refreshKey uuid1 tok,
        Ne.symm (accessKey_ne_refreshKey uuid1 tok), hstored]
    · unfold tokenEndpoint
      simp [strTruthy, ht, hval, generateAccessToken, kvPut]
  · intro hnone htok
    have hval : validateRefreshToken s tok = none := by
      unfold validateRefreshToken
      rw [hnone]
    have ht : ((tok : String) != "") = true := by simpa using htok
    unfold tokenEndpoint
    simp [strTruthy, ht, hval]

/-- Store holding a single refresh token. -/
def refreshStore : Store := fun k =>
  if k = "oauth:refresh:rt1" then some (.refreshTokV ⟨"u1", "cl1", 0⟩, 7776000)
  else none

theorem c5_refresh_token_grant_witness :
    ((tokenEndpoint constUtf8 constSha256 constBtoa refreshStore
        ⟨some "refresh_token", none, none, none, none, some "rt1"⟩ "at1" "t2" 5).1 =
      .ok ⟨"at1", "Bearer", 604800, none, some "mcp"⟩ ∧
      (tokenEndpoint constUtf8 constSha256 constBtoa refreshStore
        ⟨some "refresh_token", none, none, none, none, some "rt1"⟩ "at1" "t2" 5).2
        ("oauth:refresh:" ++ "rt1") = refreshStore ("oauth:refresh:" ++ "rt1") ∧
      (tokenEndpoint constUtf8 constSha256 constBtoa refreshStore
        ⟨some "refresh_token", none, none, none, none, some "rt1"⟩ "at1" "t2" 5).2
        ("oauth:access:" ++ "at1") =
        some (.accessTokV ⟨"u1", "cl1", "mcp", 5⟩, 604800)) ∧
    (tokenEndpoint constUtf8 constSha256 constBtoa refreshStore
        ⟨some "refresh_token", none, none, none, none, some "missing"⟩ "at1" "t2" 5).1 =
      .err "invalid_grant" 400 :=
  ⟨(c5_refresh_token_grant constUtf8 constSha256 constBtoa refreshStore "rt1" "at1" "t2" 5).1
      ⟨"u1", "cl1", 0⟩ 7776000 (by decide) (by decide),
   (c5_refresh_token_grant constUtf8 constSha256 constBtoa refreshStore "missing" "at1" "t2"
      5).2 (by decide) (by decide)⟩

/-- C6: with no Monarch credential record in the store the health check
reports `needsAction` with reason `initial_setup`; with the credential
record still physically present but metadata whose `expiresAt` lies in the
past it reports `needsAction` with reason `token_expired` — metadata expiry,
not physical presence, decides validity. -/
theorem c6_credential_health (m : Store) (userId : String) (now : Nat)
    (baseUrl publicBaseUrl : Option String) :
    (m ("monarch:token:" ++ userId) = none →
      (checkAuthHealth m userId now baseUrl publicBaseUrl).needsAction = true ∧
      (checkAuthHealth m userId now baseUrl publicBaseUrl).actionRequired =
        some "initial_setup") ∧
    (∀ tok tokTtl meta metaTtl,
      m ("monarch:token:" ++ userId) = some (.strV tok, tokTtl) → tok ≠ "" →
      m ("monarch:token:meta:" ++ userId) = some (.metaV meta, metaTtl) →
      meta.expiresAt < now →
      (checkAuthHealth m userId now baseUrl publicBaseUrl).needsAction = true ∧
      (checkAuthHealth m userId now baseUrl publicBaseUrl).actionRequired =
        some "token_expired") := by
  constructor
  · intro habsent
    have htok : monarchGetToken m userId = none := by
      unfold monarchGetToken
      simp [kvGet, habsent]
    unfold checkAuthHealth
    simp [htok, strTruthy]
  · intro tok tokTtl meta metaTtl htokstore htok hmeta hexp
    have hget : monarchGetToken m userId = some tok := by
      unfold monarchGetToken
      simp [kvGet, htokstore]
    have hmget : kvGet m ("monarch:token:meta:" ++ userId) = some (.metaV meta) := by
      simp [kvGet, hmeta]
    have ht : ((tok : String) != "") = true := by simpa using htok
    have hnotgt : ¬ (meta.expiresAt > now) := by omega
    unfold checkAuthHealth
    simp [hget, hmget, strTruthy, ht, hnotgt]

/-- Store with a Monarch token physically present and metadata that expired
at time 50. -/
def monarchStore : Store := fun k =>
  if k = "monarch:token:u1" then some (.strV "tok", 100)
  else if k = "monarch:token:meta:u1" then some (.metaV ⟨0, 50, "u1"⟩, 100)
  else none

/-- Store with no records at all. -/
def emptyStore : Store := fun _ => none

theorem c6_credential_health_witness :
    ((checkAuthHealth emptyStore "u1" 60 none none).needsAction = true ∧
      (checkAuthHealth emptyStore "u1" 60 none none).actionRequired =
        some "initial_setup") ∧
    ((checkAuthHealth monarchStore "u1" 60 none none).needsAction = true ∧
      (checkAuthHealth monarchStore "u1" 60 none none).actionRequired =
        some "token_expired") :=
  ⟨(c6_credential_health emptyStore "u1" 60 none none).1 (by decide),
   (c6_credential_health monarchStore "u1" 60 none none).2 "tok" 100 ⟨0, 50, "u1"⟩ 100
      (by decide) (by decide) (by decide) (by decide)⟩

/-- C7: decrypting the encryption of any string under the same secret
returns the string, and decrypting under a different secret fails with the
decryption error — given the contracts of the external crypto primitives
(authenticated AES-GCM under the PBKDF2-derived key, UTF-8 and base64
codec round trips) and the 12-byte IV the source generates. -/
theorem c7_cipher_roundtrip {K : Type} (cp : CryptoPrims K) (secret secret2 : String)
    (iv : List Nat) (plaintext : String) (hiv : iv.length = 12) :
    decryptString cp secret (encryptString cp secret iv plaintext) = .ok plaintext ∧
    (secret ≠ secret2 →
      decryptString cp secret2 (encryptString cp secret iv plaintext) =
        .error decryptFailureMessage) := by
  have htake : ∀ E : List Nat, (iv ++ E).take 12 = iv := by
    intro E; rw [← hiv]; exact List.take_left _ _
  have hdrop : ∀ E : List Nat, (iv ++ E).drop 12 = E := by
    intro E; rw [← hiv]; exact List.drop_left _ _
  constructor
  · have hb := cp.b64_roundtrip
      (iv ++ cp.aeadEncrypt (cp.deriveKey secret) iv (cp.utf8Encode plaintext))
    simp only [encryptString, decryptString, hb, htake, hdrop, cp.aead_roundtrip,
      cp.utf8_roundtrip]
  · intro hne
    have hb := cp.b64_roundtrip
      (iv ++ cp.aeadEncrypt (cp.deriveKey secret) iv (cp.utf8Encode plaintext))
    have hauth := cp.aead_auth (cp.deriveKey secret) (cp.deriveKey secret2) iv
      (cp.utf8Encode plaintext) (cp.derive_injective secret secret2 hne)
    simp only [encryptString, decryptString, hb, htake, hdrop, hauth]

theorem c7_cipher_roundtrip_witness :
    decryptString demoCryptoPrims "secret-1"
      (encryptString demoCryptoPrims "secret-1" (List.replicate 12 0) "héllo ✓") =
      .ok "héllo ✓" ∧
    decryptString demoCryptoPrims "secret-2"
      (encryptString demoCryptoPrims "secret-1" (List.replicate 12 0) "héllo ✓") =
      .error decryptFailureMessage :=
  ⟨(c7_cipher_roundtrip demoCryptoPrims "secret-1" "secret-2" (List.replicate 12 0)
      "héllo ✓" (by decide)).1,
   (c7_cipher_roundtrip demoCryptoPrims "secret-1" "secret-2" (List.replicate 12 0)
      "héllo ✓" (by decide)).2 (by decide)⟩

/-- C8 counterexample: the magic-link alphabet has 32 symbols, not 33 — the
source string `'ABCDEFGHJKLMNPQRSTUVWXYZ23456789'` holds 24 letters (A–Z
minus O and I) plus the 8 digits 2–9. -/
theorem c8_alphabet_size_counterexample : magicChars.length ≠ 33 := by decide

/-- C8 (amended): every generated magic-link code is exactly 8 characters
long, and each character is drawn from the 32-symbol alphabet consisting of
the digits 2–9 and the uppercase letters excluding the visually confusable
O and I. -/
theorem c8_magic_code_shape (randomValues : List Nat) :
    (generateRandomCode 8 randomValues).length = 8 ∧
    magicChars.length = 32 ∧
    ∀ c ∈ (generateRandomCode 8 randomValues).data,
      c ∈ magicChars ∧
        (('2' ≤ c ∧ c ≤ '9') ∨ ('A' ≤ c ∧ c ≤ 'Z' ∧ c ≠ 'O' ∧ c ≠ 'I')) := by
  refine ⟨?_, by decide, ?_⟩
  · show ((List.range 8).map _).length = 8
    simp
  · intro c hc
    have hchars : ∀ c ∈ magicChars,
        ('2' ≤ c ∧ c ≤ '9') ∨ ('A' ≤ c ∧ c ≤ 'Z' ∧ c ≠ 'O' ∧ c ≠ 'I') := by decide
    have hc' : c ∈ (List.range 8).map
        (fun i => magicChars.getD (randomValues.getD i 0 % magicChars.length) 'A') := hc
    rw [List.mem_map] at hc'
    obtain ⟨i, _, rfl⟩ := hc'
    have hlt : randomValues.getD i 0 % magicChars.length < magicChars.length :=
      Nat.mod_lt _ (by decide)
    have hmem : magicChars.getD (randomValues.getD i 0 % magicChars.length) 'A' ∈
        magicChars := by
      rw [List.getD_eq_getElem magicChars 'A' hlt]
      exact List.getElem_mem hlt
    exact ⟨hmem, hchars _ hmem⟩

/-- Store holding one adversarially injected session record with
`authenticated: false` (no operation of the worker produces one). -/
def badSessionStore : Store := fun k =>
  if k = "session:bad1" then some (.sessionV ⟨"u1", "n", "e", false⟩, 100) else none

/-- C9: `createSession` — the only operation that writes a session record —
always stores `authenticated: true`; and a session that is absent or whose
`authenticated` field is false is treated as unauthenticated both by the
cookie middleware `requireAuth` and by the OAuth authorize endpoint (which
detours to the login flow). -/
theorem c9_authenticated_contract (s : Store) (uuid userId username email : String) :
    ((createSession s uuid userId username email).2 ("session:" ++ uuid) =
      some (.sessionV ⟨userId, username, email, true⟩, 604800)) ∧
    (requireAuth s none = .redirect "/auth/login") ∧
    (∀ sid sd, getSession s sid = some sd → sd.authenticated = false →
      requireAuth s (some sid) = .redirect "/auth/login") ∧
    (∀ sid, getSession s sid = none → requireAuth s (some sid) = .redirect "/auth/login") ∧
    (∀ clientId redirectUri state codeChallenge sid sd uuid2 now,
      clientId ≠ "" → redirectUri ≠ "" → state ≠ "" → codeChallenge ≠ "" →
      getSession s sid = some sd → sd.authenticated = false →
      (authorizeEndpoint s (some clientId) (some redirectUri) (some state)
        (some codeChallenge) (some "S256") (some "code") (some sid) uuid2 now).1 =
        .redirectLogin state) := by
  refine ⟨?_, rfl, ?_, ?_, ?_⟩
  · simp [createSession, kvPut]
  · intro sid sd hget hfalse
    by_cases hsid : ((sid : String) != "") = true
    · simp [requireAuth, strTruthy, hsid, hget, hfalse]
    · simp [requireAuth, strTruthy, hsid]
  · intro sid hget
    by_cases hsid : ((sid : String) != "") = true
    · simp [requireAuth, strTruthy, hsid, hget]
    · simp [requireAuth, strTruthy, hsid]
  · intro clientId redirectUri state codeChallenge sid sd uuid2 now hc hr hst hch hget hfalse
    have hc' : ((clientId : String) != "") = true := by simpa using hc
    have hr' : ((redirectUri : String) != "") = true := by simpa using hr
    have hst' : ((state : String) != "") = true := by simpa using hst
    have hch' : ((codeChallenge : String) != "") = true := by simpa using hch
    by_cases hsid : ((sid : String) != "") = true
    · simp [authorizeEndpoint, strTruthy, hc', hr', hst', hch', hsid, hget, hfalse]
    · simp [authorizeEndpoint, strTruthy, hc', hr', hst', hch', hsid]

theorem c9_authenticated_contract_witness :
    ((createSession emptyStore "sess9" "u9" "n9" "e9").2 ("session:" ++ "sess9") =
      some (.sessionV ⟨"u9", "n9", "e9", true⟩, 604800)) ∧
    (requireAuth badSessionStore none = .redirect "/auth/login") ∧
    (requireAuth badSessionStore (some "bad1") = .redirect "/auth/login") ∧
    (requireAuth badSessionStore (some "nope") = .redirect "/auth/login") ∧
    ((authorizeEndpoint badSessionStore (some "c1") (some "https://a/cb") (some "st")
      (some "X") (some "S256") (some "code") (some "bad1") "u-2" 0).1 =
      .redirectLogin "st") :=
  ⟨(c9_authenticated_contract emptyStore "sess9" "u9" "n9" "e9").1,
   (c9_authenticated_contract badSessionStore "sess9" "u9" "n9" "e9").2.1,
   (c9_authenticated_contract badSessionStore "sess9" "u9" "n9" "e9").2.2.1 "bad1"
      ⟨"u1", "n", "e", false⟩ (by decide) (by decide),
   (c9_authenticated_contract badSessionStore "sess9" "u9" "n9" "e9").2.2.2.1 "nope"
      (by decide),
   (c9_authenticated_contract badSessionStore "sess9" "u9" "n9" "e9").2.2.2.2 "c1"
      "https://a/cb" "st" "X" "bad1" ⟨"u1", "n", "e", false⟩ "u-2" 0 (by decide) (by decide)
      (by decide) (by decide) (by decide) (by decide)⟩

/-- C10: client registration is never a precondition.  For any client id —
including one for which no Registered Client record exists anywhere in the
store — the authorize endpoint issues an authorization code once a valid
session exists, redemption of that code succeeds with the matching
verifier, and the authorize outcome is unchanged by adding or changing any
`oauth:client:*` record (the endpoint never reads them). -/
theorem c10_registration_not_required (utf8Encode : String → List Nat)
    (sha256 : List Nat → List Nat) (btoa : List Nat → String) (s : Store)
    (clientId redirectUri state codeChallenge verifier sid uuid uuid1 uuid2 : String)
    (sd : SessionData) (now now2 : Nat)
    (hnoclient : ∀ y, s ("oauth:client:" ++ y) = none)
    (hsid : sid ≠ "") (hsession : getSession s sid = some sd) (hauth : sd.authenticated = true)
    (hcid : clientId ≠ "") (hredir : redirectUri ≠ "") (hstate : state ≠ "")
    (hchal : codeChallenge ≠ "") (hverif : verifier ≠ "") (huuid : uuid ≠ "")
    (hchalv : computeS256Challenge utf8Encode sha256 btoa verifier = codeChallenge) :
    (authorizeEndpoint s (some clientId) (some redirectUri) (some state)
      (some codeChallenge) (some "S256") (some "code") (some sid) uuid now).1 =
      .redirectClient redirectUri uuid state ∧
    (tokenEndpoint utf8Encode sha256 btoa
      (authorizeEndpoint s (some clientId) (some redirectUri) (some state)
        (some codeChallenge) (some "S256") (some "code") (some sid) uuid now).2
      ⟨some "authorization_code", some uuid, some redirectUri, none, some verifier, none⟩
      uuid1 uuid2 now2).1 = .ok ⟨uuid1, "Bearer", 604800, some uuid2, some "mcp"⟩ ∧
    (∀ y cd ttl,
      (authorizeEndpoint (kvPut s ("oauth:client:" ++ y) (.clientV cd) ttl) (some clientId)
        (some redirectUri) (some state) (some codeChallenge) (some "S256") (some "code")
        (some sid) uuid now).1 =
      (authorizeEndpoint s (some clientId) (some redirectUri) (some state)
        (some codeChallenge) (some "S256") (some "code") (some sid) uuid now).1) := by
  have hcid' : ((clientId : String) != "") = true := by simpa using hcid
  have hredir' : ((redirectUri : String) != "") = true := by simpa using hredir
  have hstate' : ((state : String) != "") = true := by simpa using hstate
  have hchal' : ((codeChallenge : String) != "") = true := by simpa using hchal
  have hsid' : ((sid : String) != "") = true := by simpa using hsid
  have hverif' : ((verifier : String) != "") = true := by simpa using hverif
  have huuid' : ((uuid : String) != "") = true := by simpa using huuid
  have hresult : authorizeEndpoint s (some clientId) (some redirectUri) (some state)
      (some codeChallenge) (some "S256") (some "code") (some sid) uuid now =
      (.redirectClient redirectUri uuid state,
        storeAuthorizationCode s uuid sd.userId clientId redirectUri codeChallenge "S256"
          now) := by
    simp [authorizeEndpoint, strTruthy, hcid', hredir', hstate', hchal', hsid', hsession,
      hauth]
  refine ⟨by rw [hresult], ?_, ?_⟩
  · have hval : (validateAuthorizationCode utf8Encode sha256 btoa
        (storeAuthorizationCode s uuid sd.userId clientId redirectUri codeChallenge "S256"
          now) uuid verifier redirectUri) =
        (some ⟨sd.userId, clientId⟩,
          kvDelete (storeAuthorizationCode s uuid sd.userId clientId redirectUri
            codeChallenge "S256" now) ("oauth:code:" ++ uuid)) := by
      unfold validateAuthorizationCode storeAuthorizationCode
      rw [kvGet_kvPut_self]
      simp [hchalv]
    rw [hresult]
    unfold tokenEndpoint
    simp [strTruthy, huuid', hredir', hverif', hval, generateAccessToken,
      generateRefreshToken]
  · intro y cd ttl
    have hsess2 : getSession (kvPut s ("oauth:client:" ++ y) (.clientV cd) ttl) sid =
        getSession s sid := by
      unfold getSession
      rw [kvGet_kvPut_ne _ _ _ _ _ (sessionKey_ne_clientKey sid y)]
    simp [authorizeEndpoint, strTruthy, hcid', hredir', hstate', hchal', hsid', hsess2,
      hsession, hauth]

/-- Store holding only one authenticated session and nothing else. -/
def authSessionStore : Store := fun k =>
  if k = "session:sid1" then some (.sessionV ⟨"u1", "n", "e", true⟩, 604800) else none

theorem authSessionStore_no_clients (y : String) :
    authSessionStore ("oauth:client:" ++ y) = none := by
  unfold authSessionStore
  rw [if_neg]
  intro h
  exact sessionKey_ne_clientKey "sid1" y
    ((by decide : ("session:" ++ "sid1" : String) = "session:sid1").trans h.symm)

/-- Concrete registered-client record used only to perturb the store in the
C10 witness. -/
def demoClientData : ClientData :=
  ⟨"other-client", 0, none, none, none, ["authorization_code"], ["code"], "mcp", "none"⟩

theorem c10_registration_not_required_witness :
    (authorizeEndpoint authSessionStore (some "never-registered") (some "https://a/cb")
      (some "st") (some "X") (some "S256") (some "code") (some "sid1") "codeU" 0).1 =
      .redirectClient "https://a/cb" "codeU" "st" ∧
    (tokenEndpoint constUtf8 constSha256 constBtoa
      (authorizeEndpoint authSessionStore (some "never-registered") (some "https://a/cb")
        (some "st") (some "X") (some "S256") (some "code") (some "sid1") "codeU" 0).2
      ⟨some "authorization_code", some "codeU", some "https://a/cb", none, some "v", none⟩
      "at1" "rt1" 1).1 = .ok ⟨"at1", "Bearer", 604800, some "rt1", some "mcp"⟩ ∧
    ((authorizeEndpoint
        (kvPut authSessionStore ("oauth:client:" ++ "other-client")
          (.clientV demoClientData) 100)
        (some "never-registered") (some "https://a/cb") (some "st") (some "X")
        (some "S256") (some "code") (some "sid1") "codeU" 0).1 =
      (authorizeEndpoint authSessionStore (some "never-registered") (some "https://a/cb")
        (some "st") (some "X") (some "S256") (some "code") (some "sid1") "codeU" 0).1) :=
  ⟨(c10_registration_not_required constUtf8 constSha256 constBtoa authSessionStore
      "never-registered" "https://a/cb" "st" "X" "v" "sid1" "codeU" "at1" "rt1"
      ⟨"u1", "n", "e", true⟩ 0 1 authSessionStore_no_clients (by decide) (by decide)
      (by decide) (by decide) (by decide) (by decide) (by decide) (by decide) (by decide)
      (by decide)).1,
   (c10_registration_not_required constUtf8 constSha256 constBtoa authSessionStore
      "never-registered" "https://a/cb" "st" "X" "v" "sid1" "codeU" "at1" "rt1"
      ⟨"u1", "n", "e", true⟩ 0 1 authSessionStore_no_clients (by decide) (by decide)
      (by decide) (by decide) (by decide) (by decide) (by decide) (by decide) (by decide)
      (by decide)).2.1,
   (c10_registration_not_required constUtf8 constSha256 constBtoa authSessionStore
      "never-registered" "https://a/cb" "st" "X" "v" "sid1" "codeU" "at1" "rt1"
      ⟨"u1", "n", "e", true⟩ 0 1 authSessionStore_no_clients (by decide) (by decide)
      (by decide) (by decide) (by decide) (by decide) (by decide) (by decide) (by decide)
      (by decide)).2.2 "other-client" demoClientData 100⟩

end MonarchMCP
